import Mathlib

/-!
# Shallow embedding of the claude-vscode extension core

This file embeds the request/response lifecycle of `src/extension.ts`
(the current revision of the repository): request-parameter construction,
the lazily initialized credential store, the chat handler, the language
model provider, token counting, and the error reporter.

Effects (UI writes, telemetry writes, remote calls, prompts) are modelled
as explicit output lists; the vendor transport is modelled as a trace of
text chunks followed by exactly one terminal event, matching the SDK
contract the code relies on (the `text`, `error` and `finalMessage`
events of `anthropic.messages.stream`).
-/

namespace ClaudeVSCode

/-- The `claudeModel` constant of the source: fixed model identifier and
token ceiling spread into every request. -/
structure ClaudeModelConfig where
  model : String
  max_tokens : Nat
deriving DecidableEq, Repr

def claudeModel : ClaudeModelConfig :=
  { model := "claude-3-5-sonnet-20241022", max_tokens := 8192 }

/-- One element of the `messages` array of a request body. -/
structure MessageParam where
  role : String
  content : String
deriving DecidableEq, Repr

/-- The request body built by `createModelParamsStreaming`. -/
structure MessageCreateParamsStreaming where
  messages : List MessageParam
  stream : Bool
  model : String
  max_tokens : Nat
deriving DecidableEq, Repr

/-- `createMessages` of the source: wraps the prompt in a single user message. -/
def createMessages (userPrompt : String) : List MessageParam :=
  [{ role := "user", content := userPrompt }]

/-- `createModelParamsStreaming` of the source: the messages, `stream: true`,
and the spread of `claudeModel`. -/
def createModelParamsStreaming (userPrompt : String) : MessageCreateParamsStreaming :=
  { messages := createMessages userPrompt
    stream := true
    model := claudeModel.model
    max_tokens := claudeModel.max_tokens }

/-- A JavaScript failure value as the code discriminates it: either an
`Error` instance carrying a message, or any other thrown value. -/
inductive JsValue
  | errorObj (message : String)
  | nonError
deriving DecidableEq, Repr

/-- The observable effects of one `handleError` invocation: `logger.logError`
calls, `console.error` lines, and `stream.markdown` writes. -/
structure ErrorReport where
  loggedErrors : List JsValue
  consoleLines : List String
  uiMarkdown : List String
deriving DecidableEq, Repr

/-- `handleError` of the source. When `err instanceof Error`, it logs the
error to the telemetry logger and surfaces "An error occurred: <message>";
otherwise it only writes "An unknown error occurred" to the console and the
UI stream, with no telemetry-logger call. It is a total function: it never
throws. -/
def handleError : JsValue → ErrorReport
  | JsValue.errorObj msg =>
      { loggedErrors := [JsValue.errorObj msg]
        consoleLines := [msg]
        uiMarkdown := ["An error occurred: " ++ msg] }
  | JsValue.nonError =>
      { loggedErrors := []
        consoleLines := ["An unknown error occurred"]
        uiMarkdown := ["An unknown error occurred"] }

/-- The terminal event of a message stream: exactly one `error` or
`finalMessage` event ends a request. -/
inductive Terminal
  | errorEvent (e : JsValue)
  | finalMessage
deriving DecidableEq, Repr

/-- A transport trace: the `text` chunks delivered in arrival order,
followed by the single terminal event. -/
structure Trace where
  chunks : List String
  terminal : Terminal
deriving DecidableEq, Repr

/-- The `metadata` of an `IClaudeChatResult`. -/
structure ChatResultMetadata where
  command : String
deriving DecidableEq, Repr

/-- Observable outcome of one chat `handler` invocation: the remote calls
issued, the `stream.markdown` writes in order, the `handleError`
invocations (by argument, in order), whether `logger.logUsage` ran, and the
returned `ChatResult` metadata. -/
structure HandlerOutput where
  remoteCalls : List MessageCreateParamsStreaming
  uiStream : List String
  reporterCalls : List JsValue
  usageLogged : Bool
  result : ChatResultMetadata
deriving DecidableEq, Repr

/-- The chat `handler` of the source, evaluated against a transport trace.
It always issues the streaming request (there is no empty-prompt check);
each `text` event appends to the UI stream; a `finalMessage` event resolves
with the result inside the `try`, skipping `logUsage`; an `error` event
calls `handleError` and rejects, the rejection is re-caught by the
surrounding `catch` which calls `handleError` a second time, then
`logUsage` runs and the same terminal result is returned. `anthropic` is
always initialized when the handler runs, because `activate` awaits
`initAnthropicClient` before registering the participant. -/
def handler (prompt : String) (trace : Trace) : HandlerOutput :=
  let params := createModelParamsStreaming prompt
  match trace.terminal with
  | Terminal.finalMessage =>
      { remoteCalls := [params]
        uiStream := trace.chunks
        reporterCalls := []
        usageLogged := false
        result := { command := "claude_chat" } }
  | Terminal.errorEvent e =>
      { remoteCalls := [params]
        uiStream := trace.chunks ++ (handleError e).uiMarkdown ++ (handleError e).uiMarkdown
        reporterCalls := [e, e]
        usageLogged := true
        result := { command := "claude_chat" } }

/-- One structured message given to the provider; the code only reads its
`content` field (`messages.map(msg => msg.content)`). -/
structure LanguageModelChatMessage where
  content : String
deriving DecidableEq, Repr

/-- JavaScript `Array.prototype.join` with separator a single space, as used
in `messages.map(..).join(' ')`. -/
def joinSpace : List String → String
  | [] => ""
  | [s] => s
  | s :: t :: rest => s ++ " " ++ joinSpace (t :: rest)

/-- The `concatenatedContent` computation of `provideLanguageModelResponse`:
map each message to its content and join with single spaces. This is the
prompt-assembly step of the provider path. -/
def concatenatedContent (messages : List LanguageModelChatMessage) : String :=
  joinSpace (messages.map LanguageModelChatMessage.content)

/-- Observable outcome of one `provideLanguageModelResponse` invocation:
remote calls issued, fragments delivered through `progress.report` in
order, and whether the inner promise resolved or rejected (a rejection
propagates out of the method, which has no `catch`). -/
structure ProviderOutput where
  remoteCalls : List MessageCreateParamsStreaming
  reportedFragments : List String
  outcome : Except JsValue Unit
deriving Repr

/-- `provideLanguageModelResponse` of the source, evaluated against a
transport trace. If the client is not initialized it rejects immediately;
otherwise it always issues the streaming request on the joined content
(there is no empty-input check). Each `text` event reports a fragment; an
`error` event rejects with the transport error, which escapes to the
caller unnormalized; `finalMessage` resolves. -/
def provideLanguageModelResponse (clientInitialized : Bool)
    (messages : List LanguageModelChatMessage) (trace : Trace) : ProviderOutput :=
  if clientInitialized = false then
    { remoteCalls := []
      reportedFragments := []
      outcome := Except.error (JsValue.errorObj "Anthropic client is not initialized.") }
  else
    let params := createModelParamsStreaming (concatenatedContent messages)
    match trace.terminal with
    | Terminal.finalMessage =>
        { remoteCalls := [params]
          reportedFragments := trace.chunks
          outcome := Except.ok () }
    | Terminal.errorEvent e =>
        { remoteCalls := [params]
          reportedFragments := trace.chunks
          outcome := Except.error e }

/-- Input to `provideTokenCount`: a plain string or a structured message. -/
inductive TokenCountInput
  | str (s : String)
  | msg (m : LanguageModelChatMessage)
deriving DecidableEq, Repr

/-- The body of one `anthropic.messages.countTokens` call. -/
structure CountTokensRequest where
  messages : List MessageParam
  model : String
deriving DecidableEq, Repr

/-- Observable outcome of one `provideTokenCount` invocation: the counting
requests issued over the network and the returned count or thrown error. -/
structure TokenCountOutput where
  networkCalls : List CountTokensRequest
  result : Except String Nat
deriving Repr

/-- `provideTokenCount` of the source, with the remote response supplied as
a parameter (`none` models a falsy response object). It throws if the
client is uninitialized; otherwise it always delegates to the remote
counting endpoint — including for the empty string — and returns the
reported `input_tokens`, throwing when the response is unusable. -/
def provideTokenCount (clientInitialized : Bool) (text : TokenCountInput)
    (apiResponse : Option Nat) : TokenCountOutput :=
  if clientInitialized = false then
    { networkCalls := [], result := Except.error "Anthropic client is not initialized." }
  else
    let prompt := match text with
      | TokenCountInput.str s => s
      | TokenCountInput.msg m => m.content
    let req : CountTokensRequest := { messages := createMessages prompt, model := claudeModel.model }
    match apiResponse with
    | none => { networkCalls := [req], result := Except.error "Failed to count tokens." }
    | some n => { networkCalls := [req], result := Except.ok n }

/-- The in-memory Anthropic client value, holding the key it was built with. -/
structure Client where
  apiKey : String
deriving DecidableEq, Repr

/-- The options passed to `vscode.window.showInputBox`. -/
structure InputBoxOptions where
  prompt : String
  ignoreFocusOut : Bool
  password : Bool
deriving DecidableEq, Repr

/-- The input-box options used by `initAnthropicClient`. The source sets
only `prompt` and `ignoreFocusOut`; the `password` option is absent from
the object literal and therefore takes the host default `false` (the typed
key is shown in plain text). -/
def apiKeyInputBoxOptions : InputBoxOptions :=
  { prompt := "Enter your Anthropic API Key"
    ignoreFocusOut := true
    password := false }

/-- JavaScript truthiness of a `string | undefined` value: `undefined` and
the empty string are falsy. -/
def truthy : Option String → Bool
  | none => false
  | some s => !s.isEmpty

/-- The effects of one `initAnthropicClient` call: how many times
`context.secrets.get` ran, the options of each interactive prompt shown,
and each value written through `context.secrets.store`. -/
structure InitEffects where
  secretReads : Nat
  promptCalls : List InputBoxOptions
  secretStores : List String
deriving DecidableEq, Repr

/-- `initAnthropicClient` of the source as a state transition on the
module-level `anthropic` singleton. `storedSecret` is what
`context.secrets.get` would return and `inputBoxResult` what
`showInputBox` would return. If the client already exists, the body is
skipped entirely; otherwise the secret slot is read, the user is prompted
only when the slot is falsy, a falsy entry throws "API Key is required",
and a successful entry is persisted before the client is constructed. -/
def initAnthropicClient (anthropic : Option Client) (storedSecret : Option String)
    (inputBoxResult : Option String) : Except String (Option Client) × InitEffects :=
  match anthropic with
  | some c =>
      (Except.ok (some c), { secretReads := 0, promptCalls := [], secretStores := [] })
  | none =>
      if truthy storedSecret then
        (Except.ok (some { apiKey := storedSecret.getD "" }),
         { secretReads := 1, promptCalls := [], secretStores := [] })
      else if truthy inputBoxResult then
        let k := inputBoxResult.getD ""
        (Except.ok (some { apiKey := k }),
         { secretReads := 1, promptCalls := [apiKeyInputBoxOptions], secretStores := [k] })
      else
        (Except.error "API Key is required",
         { secretReads := 1, promptCalls := [apiKeyInputBoxOptions], secretStores := [] })

/-- Runs a sequence of `initAnthropicClient` calls, threading the singleton
state (a throwing call leaves the state unassigned) and accumulating the
total number of interactive prompts and of secret-store reads. -/
def runInitCalls (anthropic : Option Client) :
    List (Option String × Option String) → Option Client × Nat × Nat
  | [] => (anthropic, 0, 0)
  | (s, p) :: rest =>
      match initAnthropicClient anthropic s p with
      | (Except.ok st, eff) =>
          ((runInitCalls st rest).1,
           eff.promptCalls.length + (runInitCalls st rest).2.1,
           eff.secretReads + (runInitCalls st rest).2.2)
      | (Except.error _, eff) =>
          ((runInitCalls anthropic rest).1,
           eff.promptCalls.length + (runInitCalls anthropic rest).2.1,
           eff.secretReads + (runInitCalls anthropic rest).2.2)

/-! ## Theorems about the embedded program -/

/-- Claim C5: for every prompt string, the streaming request parameters are
exactly the fixed model identifier "claude-3-5-sonnet-20241022", a single
user message carrying the prompt, max_tokens 8192, and stream true. -/
theorem requestParams_exact (p : String) :
    createModelParamsStreaming p =
      { messages := [{ role := "user", content := p }]
        stream := true
        model := "claude-3-5-sonnet-20241022"
        max_tokens := 8192 } := rfl

/-- Claim C8: assembling the two-element message list equals the assembly of
the first message, a single space, and the assembly of the second message. -/
theorem concatenatedContent_pair (a b : LanguageModelChatMessage) :
    concatenatedContent [a, b] =
      concatenatedContent [a] ++ " " ++ concatenatedContent [b] := rfl

/-- Claim C10: the chat handler returns the identical terminal value
with metadata command "claude_chat" on the completion path and on every
error path, for every prompt and every transport trace. -/
theorem handler_result_uniform (p : String) (trace : Trace) :
    (handler p trace).result = { command := "claude_chat" } := by
  rcases trace with ⟨chunks, t⟩
  cases t <;> rfl

/-- Claim C7, counterexample: a non-Error failure is not written to the
structured telemetry sink at all — `handleError` on such a value performs
zero `logger.logError` calls, refuting that the reporter writes every
failure to the telemetry/log sink. -/
theorem errorReporter_nonError_not_logged_cex :
    (handleError JsValue.nonError).loggedErrors = [] := rfl

/-- Claim C7 (amended): the reporter surfaces exactly
"An error occurred: <message>" for failures that are Error instances and
"An unknown error occurred" otherwise; it writes the failure to the
telemetry sink only in the Error case (a non-Error failure goes only to
the console); being a total function, it never throws. -/
theorem errorReporter_normalization (e : JsValue) :
    (handleError e).uiMarkdown =
      [match e with
       | JsValue.errorObj m => "An error occurred: " ++ m
       | JsValue.nonError => "An unknown error occurred"] ∧
    (handleError e).loggedErrors =
      (match e with
       | JsValue.errorObj _ => [e]
       | JsValue.nonError => []) ∧
    (handleError e).consoleLines.length = 1 := by
  cases e <;> exact ⟨rfl, rfl, rfl⟩

/-- Claim C1, counterexample: on a trace with one delivered chunk followed
by a transport error, the Error Reporter is invoked twice, not exactly
once — once from the stream error callback and once from the surrounding
catch after the rejection propagates. -/
theorem handler_error_single_report_cex :
    ¬ (handler "hi"
        { chunks := ["partial"],
          terminal := Terminal.errorEvent (JsValue.errorObj "boom") }).reporterCalls.length = 1 := by
  decide

/-- Claim C1 (amended): on a transport error after some delivered chunks,
the Error Reporter is invoked exactly twice with that error (once in the
error callback, once in the catch), the previously delivered chunks remain
at the front of the UI stream (not retracted, only followed by the error
messages), and the handler still returns the terminal ChatResult. -/
theorem handler_error_midstream (p : String) (chunks : List String) (e : JsValue) :
    (handler p { chunks := chunks, terminal := Terminal.errorEvent e }).reporterCalls = [e, e] ∧
    (∃ tail, (handler p { chunks := chunks, terminal := Terminal.errorEvent e }).uiStream
      = chunks ++ tail) ∧
    (handler p { chunks := chunks, terminal := Terminal.errorEvent e }).result
      = { command := "claude_chat" } := by
  refine ⟨rfl, ⟨(handleError e).uiMarkdown ++ (handleError e).uiMarkdown, ?_⟩, rfl⟩
  simp [handler]

/-- Claim C2, counterexample: on the empty prompt the handler still issues
the remote streaming call — its list of remote calls is nonempty — so the
empty input is not short-circuited. -/
theorem empty_input_no_remote_call_cex :
    ¬ (handler "" { chunks := [], terminal := Terminal.finalMessage }).remoteCalls = [] := by
  decide

/-- Claim C2 (amended): neither entry point short-circuits empty input.
The handler on the empty prompt and the provider on the empty message list
(whose assembled content is the empty string) each issue exactly the
remote streaming call built from the empty prompt; the handler still
returns its usual terminal result. -/
theorem empty_input_still_calls_remote (trace : Trace) :
    (handler "" trace).remoteCalls = [createModelParamsStreaming ""] ∧
    (provideLanguageModelResponse true [] trace).remoteCalls
      = [createModelParamsStreaming ""] ∧
    concatenatedContent [] = "" ∧
    (handler "" trace).result = { command := "claude_chat" } := by
  rcases trace with ⟨chunks, t⟩
  cases t <;> exact ⟨rfl, rfl, rfl, rfl⟩

/-- Claim C3, counterexample: a transport error during a provider
invocation escapes the provider boundary as a rejection carrying the raw
error — it is not caught, not passed through the Error Reporter, and not
converted into a terminal result. -/
theorem provider_failure_escapes_cex :
    (provideLanguageModelResponse true [{ content := "hi" }]
      { chunks := [], terminal := Terminal.errorEvent (JsValue.errorObj "boom") }).outcome
      = Except.error (JsValue.errorObj "boom") := rfl

/-- Claim C3 (amended): only the chat handler contains failures — on any
transport error it invokes the Error Reporter and returns a terminal
ChatResult — while the model provider lets the same failure escape as a
rejection of the raw error, with no Error Reporter involvement. -/
theorem failure_containment_by_entry_point (p : String) (chunks : List String)
    (e : JsValue) (messages : List LanguageModelChatMessage) :
    (handler p { chunks := chunks, terminal := Terminal.errorEvent e }).result
      = { command := "claude_chat" } ∧
    ¬ (handler p { chunks := chunks, terminal := Terminal.errorEvent e }).reporterCalls = [] ∧
    (provideLanguageModelResponse true messages
      { chunks := chunks, terminal := Terminal.errorEvent e }).outcome = Except.error e := by
  exact ⟨rfl, by simp [handler], rfl⟩

/-- Helper: once the singleton client exists, any sequence of further
initialization calls leaves it untouched and performs no prompt and no
secret-store read. -/
theorem runInitCalls_initialized (c : Client) :
    ∀ calls : List (Option String × Option String),
      runInitCalls (some c) calls = (some c, 0, 0)
  | [] => rfl
  | (s, p) :: rest => by
      simp [runInitCalls, initAnthropicClient, runInitCalls_initialized c rest]

/-- Helper: a first initialization call on the empty singleton reads the
secret slot exactly once and shows the interactive prompt at most once. -/
theorem initAnthropicClient_none_effects (s p : Option String) :
    (initAnthropicClient none s p).2.secretReads = 1 ∧
    (initAnthropicClient none s p).2.promptCalls.length ≤ 1 := by
  simp only [initAnthropicClient]
  by_cases h1 : truthy s = true
  · simp [h1]
  · by_cases h2 : truthy p = true
    · simp [h1, h2]
    · simp [h1, h2]

/-- Claim C4: if the first credential-acquisition call of a process
lifetime succeeds and installs a client, then over that call followed by
any sequence of later calls the state stays that client, the interactive
prompt runs at most once in total, and exactly one secret-store read ever
happens (so every later call performs no prompt and no store read). -/
theorem credential_prompt_at_most_once (s p : Option String) (c : Client)
    (calls : List (Option String × Option String))
    (h : (initAnthropicClient none s p).1 = Except.ok (some c)) :
    (runInitCalls none ((s, p) :: calls)).1 = some c ∧
    (runInitCalls none ((s, p) :: calls)).2.1 ≤ 1 ∧
    (runInitCalls none ((s, p) :: calls)).2.2 = 1 := by
  have heff := initAnthropicClient_none_effects s p
  rcases hstep : initAnthropicClient none s p with ⟨res, eff⟩
  rw [hstep] at h heff
  cases res with
  | error e => simp at h
  | ok st =>
      have hst : st = some c := by simpa using h
      subst hst
      simp [runInitCalls, hstep, runInitCalls_initialized c calls]
      exact ⟨heff.2, heff.1⟩

/-- Witness for C4 at a concrete first call that succeeds from the secret
store, followed by one later call. -/
theorem credential_prompt_at_most_once_witness :
    (initAnthropicClient none (some "key") none).1 = Except.ok (some { apiKey := "key" }) ∧
    (runInitCalls none ((some "key", none) :: [(none, some "other")])).1
      = some { apiKey := "key" } ∧
    (runInitCalls none ((some "key", none) :: [(none, some "other")])).2.1 ≤ 1 ∧
    (runInitCalls none ((some "key", none) :: [(none, some "other")])).2.2 = 1 :=
  ⟨rfl, credential_prompt_at_most_once (some "key") none { apiKey := "key" }
    [(none, some "other")] rfl⟩

/-- Claim C6, counterexample: on the empty input the token-count operation
still issues a remote counting request (its network-call list is
nonempty), and it returns whatever count the endpoint reports (here 7),
not a short-circuited 0. -/
theorem countTokens_empty_cex :
    ¬ (provideTokenCount true (TokenCountInput.str "") (some 7)).networkCalls = [] ∧
    (provideTokenCount true (TokenCountInput.str "") (some 7)).result = Except.ok 7 := by
  exact ⟨by decide, rfl⟩

/-- Claim C6 (amended): with an initialized client the token-count
operation always delegates to the remote counting endpoint — including on
the empty input — issuing exactly one counting request and returning the
endpoint count, or throwing when the response is unusable; there is no
empty-input short circuit. -/
theorem countTokens_always_delegates (text : TokenCountInput) (resp : Option Nat) :
    (provideTokenCount true text resp).networkCalls.length = 1 ∧
    (provideTokenCount true text resp).result =
      (match resp with
       | none => Except.error "Failed to count tokens."
       | some n => Except.ok n) := by
  cases resp <;> cases text <;> exact ⟨rfl, rfl⟩

/-- Claim C9, counterexample: a concrete credential acquisition with an
empty secret slot reaches the interactive prompt, and the prompt options
used have the password flag false — the input box is not configured to
hide the typed key. -/
theorem apiKeyPrompt_not_obscured_cex :
    (initAnthropicClient none none (some "k")).2.promptCalls = [apiKeyInputBoxOptions] ∧
    apiKeyInputBoxOptions.password = false := ⟨rfl, rfl⟩

/-- Claim C9 (amended): every invocation of the credential acquisition
that reaches the interactive prompt uses exactly the options with prompt
text "Enter your Anthropic API Key" and ignoreFocusOut true but with the
password option unset (false), so the input is shown in plain text rather
than obscured. -/
theorem apiKeyPrompt_options (st : Option Client) (s p : Option String) :
    ((initAnthropicClient st s p).2.promptCalls = [] ∨
     (initAnthropicClient st s p).2.promptCalls = [apiKeyInputBoxOptions]) ∧
    apiKeyInputBoxOptions.prompt = "Enter your Anthropic API Key" ∧
    apiKeyInputBoxOptions.ignoreFocusOut = true ∧
    apiKeyInputBoxOptions.password = false := by
  refine ⟨?_, rfl, rfl, rfl⟩
  cases st with
  | some c => exact Or.inl rfl
  | none =>
      simp only [initAnthropicClient]
      by_cases h1 : truthy s = true
      · simp [h1]
      · by_cases h2 : truthy p = true
        · simp [h1, h2]
        · simp [h1, h2]

end ClaudeVSCode
